import Mathlib

/-
  Verification of the Position-Sizing & Ladder-Consistency Engine
  (repository Oakengreen/Hedging_v2, src/main.py).

  The Python code works with floats and Python's builtin round (banker's
  rounding: round half to even).  We embed the arithmetic over ℚ, with
  pyRoundInt / pyRound2 / pyRoundDigits modelling Python's round(x),
  round(x, 2) and round(x, digits).
-/

namespace Hedging

/-- Python's builtin round(x) to the nearest integer, ties to even. -/
def pyRoundInt (x : ℚ) : ℤ :=
  let n := ⌊x⌋
  if x - n < 1/2 then n
  else if 1/2 < x - n then n + 1
  else if n % 2 = 0 then n else n + 1

/-- Python's round(x, 2). -/
def pyRound2 (x : ℚ) : ℚ := (pyRoundInt (x * 100) : ℚ) / 100

/-- Python's round(x, d) for a nonnegative digit count d. -/
def pyRoundDigits (d : ℕ) (x : ℚ) : ℚ := (pyRoundInt (x * 10 ^ d) : ℚ) / 10 ^ d

lemma floor_le_pyRoundInt (x : ℚ) : ⌊x⌋ ≤ pyRoundInt x := by
  unfold pyRoundInt
  dsimp only
  split_ifs <;> omega

lemma pyRoundInt_le_floor_add_one (x : ℚ) : pyRoundInt x ≤ ⌊x⌋ + 1 := by
  unfold pyRoundInt
  dsimp only
  split_ifs <;> omega

lemma abs_sub_pyRoundInt (x : ℚ) : |x - pyRoundInt x| ≤ 1/2 := by
  have h1 : (⌊x⌋ : ℚ) ≤ x := Int.floor_le x
  have h2 : x < ⌊x⌋ + 1 := Int.lt_floor_add_one x
  unfold pyRoundInt
  dsimp only
  split_ifs with hlt hgt heven
  · rw [abs_le]
    constructor <;> linarith
  · rw [abs_le]
    push_cast
    constructor <;> linarith
  · rw [abs_le]
    constructor <;> linarith
  · rw [abs_le]
    push_cast
    constructor <;> linarith

lemma pyRoundInt_mono {x y : ℚ} (h : x ≤ y) : pyRoundInt x ≤ pyRoundInt y := by
  have hf : ⌊x⌋ ≤ ⌊y⌋ := Int.floor_mono h
  rcases eq_or_lt_of_le hf with heq | hlt
  · unfold pyRoundInt
    dsimp only
    rw [← heq]
    split_ifs <;> first
      | omega
      | (exfalso; linarith)
  · calc pyRoundInt x ≤ ⌊x⌋ + 1 := pyRoundInt_le_floor_add_one x
      _ ≤ ⌊y⌋ := by omega
      _ ≤ pyRoundInt y := floor_le_pyRoundInt y

lemma pyRoundInt_intCast (n : ℤ) : pyRoundInt (n : ℚ) = n := by
  unfold pyRoundInt
  dsimp only
  rw [Int.floor_intCast]
  norm_num

lemma abs_sub_pyRound2 (x : ℚ) : |x - pyRound2 x| ≤ 1/200 := by
  have h := abs_sub_pyRoundInt (x * 100)
  unfold pyRound2
  have hx : x - (pyRoundInt (x * 100) : ℚ) / 100 = (x * 100 - pyRoundInt (x * 100)) / 100 := by
    ring
  rw [hx, abs_div]
  rw [show |(100 : ℚ)| = 100 by norm_num]
  rw [div_le_iff₀ (by norm_num : (0:ℚ) < 100)]
  calc |x * 100 - (pyRoundInt (x * 100) : ℚ)| ≤ 1/2 := h
    _ = 1/200 * 100 := by norm_num

lemma pyRound2_mono {x y : ℚ} (h : x ≤ y) : pyRound2 x ≤ pyRound2 y := by
  unfold pyRound2
  have h1 : pyRoundInt (x * 100) ≤ pyRoundInt (y * 100) :=
    pyRoundInt_mono (mul_le_mul_of_nonneg_right h (by norm_num))
  have h2 : (pyRoundInt (x * 100) : ℚ) ≤ (pyRoundInt (y * 100) : ℚ) := by exact_mod_cast h1
  exact (div_le_div_iff_of_pos_right (by norm_num)).mpr h2

lemma pyRound2_int_div (k : ℤ) : pyRound2 ((k : ℚ) / 100) = (k : ℚ) / 100 := by
  unfold pyRound2
  rw [div_mul_cancel₀ _ (by norm_num : (100:ℚ) ≠ 0), pyRoundInt_intCast]

lemma pyRound2_idem (x : ℚ) : pyRound2 (pyRound2 x) = pyRound2 x :=
  pyRound2_int_div _

/-- Rounding error, scaled: the dollar error of rounding a lot size to two
decimals, seen at a (positive) dollars-per-lot factor c. -/
lemma pyRound2_mul_bound (x c : ℚ) (hc : 0 < c) : |pyRound2 x * c - x * c| ≤ c / 200 := by
  have h2 : |pyRound2 x - x| ≤ 1/200 := by
    rw [abs_sub_comm]; exact abs_sub_pyRound2 x
  have hx : pyRound2 x * c - x * c = (pyRound2 x - x) * c := by ring
  rw [hx, abs_mul, abs_of_pos hc]
  calc |pyRound2 x - x| * c ≤ 1/200 * c := mul_le_mul_of_nonneg_right h2 (le_of_lt hc)
    _ = c / 200 := by ring

/-! ## Risk sizing (src/main.py lines 60-64, 208-216) -/

/-- src/main.py, calculate_loss_in_dollars. -/
def calculate_loss_in_dollars (initial_stop_percent account_size : ℚ) : ℚ :=
  initial_stop_percent / 100 * account_size

/-- src/main.py, calculate_initial_lot_size. -/
def calculate_initial_lot_size (loss_in_dollars sl_distance pip_value : ℚ) : ℚ :=
  pyRound2 (loss_in_dollars / (sl_distance * pip_value))

/-! ## Convergence solvers (src/main.py lines 290-355) -/

/-- src/main.py, verify_total_contribution: the summed dollar contribution of a
list of lot sizes at the shared take-profit distance. -/
def verify_total_contribution (lot_sizes : List ℚ) (tp_distance pip_value : ℚ) : ℚ :=
  (lot_sizes.map (fun lot_size => lot_size * tp_distance * pip_value)).sum

/-- Loop body of calculate_stepped_lot_sizes: fuel counts the remaining
iterations of the Python for-loop; lot_sizes and current_contribution are the
loop-carried state. -/
def stepped_go (total_goal tp_distance pip_value : ℚ) (num_orders : ℕ) :
    ℕ → List ℚ → ℚ → List ℚ
  | 0, lot_sizes, _ => lot_sizes
  | fuel + 1, lot_sizes, current_contribution =>
      let remaining_goal := total_goal - current_contribution
      let remaining_orders := (num_orders : ℚ) - (lot_sizes.length : ℚ)
      let raw := remaining_goal / (remaining_orders * tp_distance * pip_value)
      let next_lot_size := max raw (lot_sizes.getLastD 0)
      stepped_go total_goal tp_distance pip_value num_orders fuel
        (lot_sizes ++ [pyRound2 next_lot_size])
        (current_contribution + next_lot_size * tp_distance * pip_value)

/-- src/main.py, calculate_stepped_lot_sizes (monotonic-stepped solver). -/
def calculate_stepped_lot_sizes (initial_lot_size total_goal tp_distance pip_value : ℚ)
    (num_orders : ℕ) : List ℚ :=
  stepped_go total_goal tp_distance pip_value num_orders (num_orders - 1)
    [initial_lot_size] (initial_lot_size * tp_distance * pip_value)

/-- Loop body of calculate_stepped_lot_sizes_exact: same iteration without the
monotonicity floor. -/
def exact_go (total_goal tp_distance pip_value : ℚ) (num_orders : ℕ) :
    ℕ → List ℚ → ℚ → List ℚ
  | 0, lot_sizes, _ => lot_sizes
  | fuel + 1, lot_sizes, current_total =>
      let remaining_goal := total_goal - current_total
      let next_lot_size :=
        remaining_goal / (((num_orders : ℚ) - (lot_sizes.length : ℚ)) * tp_distance * pip_value)
      exact_go total_goal tp_distance pip_value num_orders fuel
        (lot_sizes ++ [pyRound2 next_lot_size])
        (current_total + next_lot_size * tp_distance * pip_value)

/-- Python's lot_sizes[-1] += a on a nonempty list. -/
def addToLast (a : ℚ) : List ℚ → List ℚ
  | [] => []
  | [x] => [x + a]
  | x :: y :: rest => x :: addToLast a (y :: rest)

/-- src/main.py, calculate_stepped_lot_sizes_exact (exact-residual solver):
the loop, then a final correction added to the last rung. -/
def calculate_stepped_lot_sizes_exact (initial_lot_size total_goal tp_distance pip_value : ℚ)
    (num_orders : ℕ) : List ℚ :=
  let lot_sizes := exact_go total_goal tp_distance pip_value num_orders (num_orders - 1)
    [initial_lot_size] (initial_lot_size * tp_distance * pip_value)
  let final_adjustment :=
    (total_goal - verify_total_contribution lot_sizes tp_distance pip_value) /
      (tp_distance * pip_value)
  addToLast (pyRound2 final_adjustment) lot_sizes

lemma stepped_go_length (total_goal tp_distance pip_value : ℚ) (num_orders : ℕ) :
    ∀ (fuel : ℕ) (lot_sizes : List ℚ) (cur : ℚ),
      (stepped_go total_goal tp_distance pip_value num_orders fuel lot_sizes cur).length =
        lot_sizes.length + fuel := by
  intro fuel
  induction fuel with
  | zero => intro l c; simp [stepped_go]
  | succ k ih =>
      intro l c
      rw [stepped_go, ih]
      simp
      omega

lemma exact_go_length (total_goal tp_distance pip_value : ℚ) (num_orders : ℕ) :
    ∀ (fuel : ℕ) (lot_sizes : List ℚ) (cur : ℚ),
      (exact_go total_goal tp_distance pip_value num_orders fuel lot_sizes cur).length =
        lot_sizes.length + fuel := by
  intro fuel
  induction fuel with
  | zero => intro l c; simp [exact_go]
  | succ k ih =>
      intro l c
      rw [exact_go, ih]
      simp
      omega

lemma addToLast_length (a : ℚ) : ∀ (l : List ℚ), (addToLast a l).length = l.length
  | [] => rfl
  | [_] => rfl
  | x :: y :: rest => by
      rw [addToLast]
      simp only [List.length_cons]
      rw [addToLast_length a (y :: rest)]
      simp

lemma addToLast_contribution (a tp_distance pip_value : ℚ) :
    ∀ (l : List ℚ), l ≠ [] →
      verify_total_contribution (addToLast a l) tp_distance pip_value =
        verify_total_contribution l tp_distance pip_value + a * tp_distance * pip_value
  | [], h => absurd rfl h
  | [x], _ => by
      simp [addToLast, verify_total_contribution]
      ring
  | x :: y :: rest, _ => by
      rw [addToLast]
      have ih := addToLast_contribution a tp_distance pip_value (y :: rest) (by simp)
      simp only [verify_total_contribution, List.map_cons, List.sum_cons] at *
      rw [ih]
      ring

/-- Claim C1 (amended): the exact-residual solver misses the total goal by at most
half a hundredth of a lot at the take-profit distance, i.e. by at most
tp_distance * pip_value / 200 dollars. -/
theorem exact_solver_residual_bound (initial_lot_size total_goal tp_distance pip_value : ℚ)
    (num_orders : ℕ) (hd : 0 < tp_distance) (hpv : 0 < pip_value) :
    |verify_total_contribution
        (calculate_stepped_lot_sizes_exact initial_lot_size total_goal tp_distance pip_value
          num_orders) tp_distance pip_value - total_goal|
      ≤ tp_distance * pip_value / 200 := by
  have hc : 0 < tp_distance * pip_value := mul_pos hd hpv
  simp only [calculate_stepped_lot_sizes_exact]
  set L := exact_go total_goal tp_distance pip_value num_orders (num_orders - 1)
    [initial_lot_size] (initial_lot_size * tp_distance * pip_value) with hLdef
  have hlen : L.length = 1 + (num_orders - 1) := by
    rw [hLdef, exact_go_length]
    simp
  have hne : L ≠ [] := by
    apply List.ne_nil_of_length_pos
    omega
  rw [addToLast_contribution _ _ _ L hne]
  set S := verify_total_contribution L tp_distance pip_value with hS
  set x := (total_goal - S) / (tp_distance * pip_value) with hx
  have hxc : x * (tp_distance * pip_value) = total_goal - S :=
    div_mul_cancel₀ _ (ne_of_gt hc)
  have key : S + pyRound2 x * tp_distance * pip_value - total_goal =
      pyRound2 x * (tp_distance * pip_value) - x * (tp_distance * pip_value) := by
    rw [hxc]; ring
  rw [key]
  exact pyRound2_mul_bound x _ hc

/-- Claim C1 counterexample: on the spec's own example (initial lot 0.33, goal $500,
take-profit distance 1500 pips, pip value $1, four orders) the exact-residual
solver returns contributions summing to $495, which is $5 — not within one
cent — away from the goal. -/
theorem exact_solver_cent_counterexample :
    calculate_stepped_lot_sizes_exact (33/100) 500 1500 1 4 = [33/100, 0, 0, 0] ∧
    ¬ |verify_total_contribution
        (calculate_stepped_lot_sizes_exact (33/100) 500 1500 1 4) 1500 1 - 500| ≤ 1/100 := by
  have h : calculate_stepped_lot_sizes_exact (33/100) 500 1500 1 4 = [33/100, 0, 0, 0] := by
    norm_num [calculate_stepped_lot_sizes_exact, exact_go, addToLast,
      verify_total_contribution, pyRound2, pyRoundInt]
  refine ⟨h, ?_⟩
  rw [h]
  norm_num [verify_total_contribution]

/-- Witness for exact_solver_residual_bound at a concrete input. -/
theorem exact_solver_residual_bound_witness :
    (0:ℚ) < 1500 ∧ (0:ℚ) < 1 ∧
    |verify_total_contribution
        (calculate_stepped_lot_sizes_exact (33/100) 500 1500 1 4) 1500 1 - 500|
      ≤ 1500 * 1 / 200 :=
  ⟨by norm_num, by norm_num,
    exact_solver_residual_bound (33/100) 500 1500 1 4 (by norm_num) (by norm_num)⟩

/-- Claim C3 (amended): the initial order's loss at the stop equals the configured
dollar loss up to the rounding of the lot size to two decimals, i.e. within
sl_distance * pip_value / 200 dollars (not within one cent in general). -/
theorem initial_lot_risk_bound (account_size initial_stop_percent sl_distance pip_value : ℚ)
    (hd : 0 < sl_distance) (hpv : 0 < pip_value) :
    |calculate_initial_lot_size (calculate_loss_in_dollars initial_stop_percent account_size)
        sl_distance pip_value * sl_distance * pip_value -
      calculate_loss_in_dollars initial_stop_percent account_size|
      ≤ sl_distance * pip_value / 200 := by
  have hc : 0 < sl_distance * pip_value := mul_pos hd hpv
  set loss := calculate_loss_in_dollars initial_stop_percent account_size
  have hxc : loss / (sl_distance * pip_value) * (sl_distance * pip_value) = loss :=
    div_mul_cancel₀ _ (ne_of_gt hc)
  have key : calculate_initial_lot_size loss sl_distance pip_value * sl_distance * pip_value -
      loss = pyRound2 (loss / (sl_distance * pip_value)) * (sl_distance * pip_value) -
        loss / (sl_distance * pip_value) * (sl_distance * pip_value) := by
    rw [hxc]
    unfold calculate_initial_lot_size
    ring
  rw [key]
  exact pyRound2_mul_bound _ _ hc

/-- Claim C3 counterexample: with account 10000, risk 1%, stop distance 300 pips and
pip value $1 the initial lot is 0.33 and the loss at the stop is $99 — a full
dollar, not one cent, away from the configured $100. -/
theorem initial_lot_cent_counterexample :
    ¬ |calculate_initial_lot_size (calculate_loss_in_dollars 1 10000) 300 1 * 300 * 1 -
        calculate_loss_in_dollars 1 10000| ≤ 1/100 := by
  norm_num [calculate_initial_lot_size, calculate_loss_in_dollars, pyRound2, pyRoundInt]

/-- Witness for initial_lot_risk_bound at a concrete input. -/
theorem initial_lot_risk_bound_witness :
    (0:ℚ) < 300 ∧ (0:ℚ) < 1 ∧
    |calculate_initial_lot_size (calculate_loss_in_dollars 1 10000) 300 1 * 300 * 1 -
        calculate_loss_in_dollars 1 10000| ≤ 300 * 1 / 200 :=
  ⟨by norm_num, by norm_num, initial_lot_risk_bound 10000 1 300 1 (by norm_num) (by norm_num)⟩

/-- Claim C4: Risk Sizing computes round(loss / (distance * pip_value), 2) with
loss = percent/100 * account, and on the spec's example it returns 0.33. -/
theorem initial_lot_formula :
    (∀ loss_in_dollars sl_distance pip_value : ℚ,
        calculate_initial_lot_size loss_in_dollars sl_distance pip_value =
          pyRound2 (loss_in_dollars / (sl_distance * pip_value))) ∧
    (∀ initial_stop_percent account_size : ℚ,
        calculate_loss_in_dollars initial_stop_percent account_size =
          initial_stop_percent / 100 * account_size) ∧
    calculate_initial_lot_size (calculate_loss_in_dollars 1 10000) 300 1 = 33/100 := by
  refine ⟨fun _ _ _ => rfl, fun _ _ => rfl, ?_⟩
  norm_num [calculate_initial_lot_size, calculate_loss_in_dollars, pyRound2, pyRoundInt]

lemma stepped_go_chain (total_goal tp_distance pip_value : ℚ) (num_orders : ℕ) :
    ∀ (fuel : ℕ) (lot_sizes : List ℚ) (cur : ℚ),
      List.Chain' (· ≤ ·) lot_sizes →
      pyRound2 (lot_sizes.getLastD 0) = lot_sizes.getLastD 0 →
      List.Chain' (· ≤ ·)
        (stepped_go total_goal tp_distance pip_value num_orders fuel lot_sizes cur) := by
  intro fuel
  induction fuel with
  | zero =>
      intro l c hch _
      simpa [stepped_go] using hch
  | succ k ih =>
      intro l c hch hfix
      rw [stepped_go]
      apply ih
      · rw [List.chain'_append]
        refine ⟨hch, List.chain'_singleton _, ?_⟩
        intro x hx y hy
        have hy' : y = pyRound2 (max
            ((total_goal - c) / (((num_orders : ℚ) - (l.length : ℚ)) * tp_distance * pip_value))
            (l.getLastD 0)) := by
          simpa using hy.symm
        have hx' : x = l.getLastD 0 := by
          rw [List.getLastD_eq_getLast?]
          rw [show l.getLast? = some x from hx]
          rfl
        rw [hx', hy']
        calc l.getLastD 0 = pyRound2 (l.getLastD 0) := hfix.symm
          _ ≤ _ := pyRound2_mono (le_max_right _ _)
      · rw [List.getLastD_concat]
        exact pyRound2_idem _

/-- Claim C2 (amended): the monotonic-stepped solver returns a non-decreasing list of
lot sizes whenever the initial lot size is an exact multiple of 0.01 (as is the
case for the initial lot the program feeds it, which is rounded to two
decimals); for other initial lots the very first step can round below it. -/
theorem stepped_solver_monotone (initial_lot_size total_goal tp_distance pip_value : ℚ)
    (num_orders : ℕ) (h : ∃ k : ℤ, initial_lot_size = (k : ℚ) / 100) :
    List.Chain' (· ≤ ·)
      (calculate_stepped_lot_sizes initial_lot_size total_goal tp_distance pip_value
        num_orders) := by
  obtain ⟨k, hk⟩ := h
  apply stepped_go_chain
  · exact List.chain'_singleton _
  · show pyRound2 initial_lot_size = initial_lot_size
    rw [hk]
    exact pyRound2_int_div k

/-- Claim C2 counterexample: with an initial lot size of 0.333 (not a multiple of
0.01) and a goal already exceeded, the second rung is round(max(raw, 0.333), 2)
= 0.33 < 0.333, so the returned list is not non-decreasing from the initial
market rung to the first top-up rung. -/
theorem stepped_solver_monotone_counterexample :
    calculate_stepped_lot_sizes (333/1000) 0 1 1 2 = [333/1000, 33/100] ∧
    ¬ List.Chain' (· ≤ ·) (calculate_stepped_lot_sizes (333/1000) 0 1 1 2) := by
  have h : calculate_stepped_lot_sizes (333/1000) 0 1 1 2 = [333/1000, 33/100] := by
    norm_num [calculate_stepped_lot_sizes, stepped_go, pyRound2, pyRoundInt,
      List.getLastD]
  refine ⟨h, ?_⟩
  rw [h]
  norm_num

/-- Witness for stepped_solver_monotone at a concrete input. -/
theorem stepped_solver_monotone_witness :
    (∃ k : ℤ, (33/100 : ℚ) = (k : ℚ) / 100) ∧
    List.Chain' (· ≤ ·) (calculate_stepped_lot_sizes (33/100) 500 1500 1 4) :=
  ⟨⟨33, by norm_num⟩,
    stepped_solver_monotone (33/100) 500 1500 1 4 ⟨33, by norm_num⟩⟩

/-- Claim C8 (amended): neither solver checks its inputs or signals an error — both
are total and return a lot-size list of length num_orders for every input,
including total_goal at or below the initial contribution and negative
take-profit distances.  (The only failure mode in the source is an unhandled
ZeroDivisionError when tp_distance * pip_value = 0, outside this statement.) -/
theorem solvers_return_full_list (initial_lot_size total_goal tp_distance pip_value : ℚ)
    (num_orders : ℕ) (hn : 1 ≤ num_orders) :
    (calculate_stepped_lot_sizes initial_lot_size total_goal tp_distance pip_value
        num_orders).length = num_orders ∧
    (calculate_stepped_lot_sizes_exact initial_lot_size total_goal tp_distance pip_value
        num_orders).length = num_orders := by
  constructor
  · rw [calculate_stepped_lot_sizes, stepped_go_length]
    simp
    omega
  · rw [calculate_stepped_lot_sizes_exact]
    rw [addToLast_length, exact_go_length]
    simp
    omega

/-- Claim C8 counterexample: with total_goal = 0 ≤ 1 = the initial contribution, and
likewise with tp_distance = -1 < 0, both solvers return a lot-size list instead
of failing with InsufficientGoal / NonPositiveDistance — no such error exists
anywhere in the source. -/
theorem solvers_no_error_counterexample :
    calculate_stepped_lot_sizes 1 0 1 1 2 = [1, 1] ∧
    calculate_stepped_lot_sizes_exact 1 0 1 1 2 = [1, -1] ∧
    calculate_stepped_lot_sizes 1 10 (-1) 1 2 = [1, 1] ∧
    calculate_stepped_lot_sizes_exact 1 10 (-1) 1 2 = [1, -11] := by
  refine ⟨?_, ?_, ?_, ?_⟩ <;>
    norm_num [calculate_stepped_lot_sizes, calculate_stepped_lot_sizes_exact,
      stepped_go, exact_go, addToLast, verify_total_contribution, pyRound2, pyRoundInt,
      List.getLastD]

/-- Witness for solvers_return_full_list at a concrete input. -/
theorem solvers_return_full_list_witness :
    1 ≤ 4 ∧
    (calculate_stepped_lot_sizes (33/100) 500 1500 1 4).length = 4 ∧
    (calculate_stepped_lot_sizes_exact (33/100) 500 1500 1 4).length = 4 :=
  ⟨by norm_num, solvers_return_full_list (33/100) 500 1500 1 4 (by norm_num)⟩

/-! ## Break-even calculator (src/main.py lines 358-380) -/

/-- Loop body of calculate_be_levels: the Python loop first adds the initial
order's take-profit contribution to cumulative_profit, then emits the rung's
break-even distance round(cumulative_profit / (lot_size * pip_value), 2). -/
def be_go (initial_lot_size tp_distance pip_value : ℚ) : List ℚ → ℚ → List ℚ
  | [], _ => []
  | lot_size :: rest, cumulative_profit =>
      pyRound2 ((cumulative_profit + initial_lot_size * tp_distance * pip_value) /
          (lot_size * pip_value)) ::
        be_go initial_lot_size tp_distance pip_value rest
          (cumulative_profit + initial_lot_size * tp_distance * pip_value)

/-- src/main.py, calculate_be_levels. -/
def calculate_be_levels (initial_lot_size : ℚ) (lot_sizes : List ℚ)
    (tp_distance pip_value : ℚ) : List ℚ :=
  be_go initial_lot_size tp_distance pip_value lot_sizes 0

/-- Growth bound on consecutive top-up lot sizes: the rung at (0-based) depth i
may exceed the previous rung by at most the factor (i+2)/(i+1) — exactly the
growth of the banked cumulative profit between the two rungs. -/
def lotGrowthOKb : ℕ → List ℚ → Bool
  | _, [] => true
  | _, [_] => true
  | i, a :: b :: rest =>
      decide (((i : ℚ) + 1) * b ≤ ((i : ℚ) + 2) * a) && lotGrowthOKb (i + 1) (b :: rest)

lemma be_go_chain (initial_lot_size tp_distance pip_value : ℚ)
    (hC : 0 < initial_lot_size * tp_distance * pip_value) (hpv : 0 < pip_value) :
    ∀ (lot_sizes : List ℚ) (i : ℕ) (cum : ℚ),
      cum = (i : ℚ) * (initial_lot_size * tp_distance * pip_value) →
      (∀ l ∈ lot_sizes, 0 < l) →
      lotGrowthOKb i lot_sizes = true →
      List.Chain' (· ≤ ·) (be_go initial_lot_size tp_distance pip_value lot_sizes cum) := by
  intro lot_sizes
  induction lot_sizes with
  | nil => intro i cum _ _ _; simp [be_go]
  | cons a tail ih =>
      intro i cum hcum hpos hgrow
      cases tail with
      | nil => simp [be_go]
      | cons b rest =>
          have ha : 0 < a := hpos a (by simp)
          have hb : 0 < b := hpos b (by simp)
          simp only [lotGrowthOKb, Bool.and_eq_true, decide_eq_true_eq] at hgrow
          rw [be_go, List.chain'_cons']
          constructor
          · intro y hy
            rw [be_go] at hy
            simp only [List.head?_cons, Option.mem_def, Option.some.injEq] at hy
            rw [← hy]
            apply pyRound2_mono
            rw [div_le_div_iff₀ (mul_pos ha hpv) (mul_pos hb hpv)]
            have e1 : (cum + initial_lot_size * tp_distance * pip_value) * (b * pip_value) =
                (((i : ℚ) + 1) * b) *
                  ((initial_lot_size * tp_distance * pip_value) * pip_value) := by
              rw [hcum]; ring
            have e2 : (cum + initial_lot_size * tp_distance * pip_value +
                  initial_lot_size * tp_distance * pip_value) * (a * pip_value) =
                (((i : ℚ) + 2) * a) *
                  ((initial_lot_size * tp_distance * pip_value) * pip_value) := by
              rw [hcum]; ring
            rw [e1, e2]
            exact mul_le_mul_of_nonneg_right hgrow.1 (le_of_lt (mul_pos hC hpv))
          · exact ih (i + 1) _ (by rw [hcum]; push_cast; ring)
              (fun l hl => hpos l (List.mem_cons_of_mem _ hl)) hgrow.2

/-- Claim C5 (amended): the break-even pip distances are non-decreasing across rungs
whenever the (positive) top-up lot sizes grow by at most the factor (i+2)/(i+1)
from rung i to rung i+1 — the growth rate of the banked profit; non-decreasing
lot sizes alone do not suffice. -/
theorem be_levels_monotone (initial_lot_size tp_distance pip_value : ℚ) (lot_sizes : List ℚ)
    (hi : 0 < initial_lot_size) (hd : 0 < tp_distance) (hpv : 0 < pip_value)
    (hpos : ∀ l ∈ lot_sizes, 0 < l)
    (hgrow : lotGrowthOKb 0 lot_sizes = true) :
    List.Chain' (· ≤ ·)
      (calculate_be_levels initial_lot_size lot_sizes tp_distance pip_value) := by
  have hC : 0 < initial_lot_size * tp_distance * pip_value := by positivity
  exact be_go_chain initial_lot_size tp_distance pip_value hC hpv lot_sizes 0 0
    (by norm_num) hpos hgrow

/-- Claim C5 counterexample: for the non-decreasing positive lot sizes [1, 3] (with
initial lot 1, distance 1 pip, pip value 1) the break-even levels are
[1, 0.67], which decrease: the second rung carries three times the lots but
only twice the banked profit. -/
theorem be_levels_monotone_counterexample :
    List.Chain' (· ≤ ·) [(1 : ℚ), 3] ∧ (∀ l ∈ [(1 : ℚ), 3], 0 < l) ∧
    calculate_be_levels 1 [1, 3] 1 1 = [1, 67/100] ∧
    ¬ List.Chain' (· ≤ ·) (calculate_be_levels 1 [1, 3] 1 1) := by
  have h : calculate_be_levels 1 [1, 3] 1 1 = [1, 67/100] := by
    norm_num [calculate_be_levels, be_go, pyRound2, pyRoundInt]
  refine ⟨by norm_num, by norm_num, h, ?_⟩
  rw [h]
  norm_num

/-- Witness for be_levels_monotone at a concrete input. -/
theorem be_levels_monotone_witness :
    (0:ℚ) < 1 ∧ (∀ l ∈ [(1:ℚ), 1], 0 < l) ∧ lotGrowthOKb 0 [1, 1] = true ∧
    List.Chain' (· ≤ ·) (calculate_be_levels 1 [1, 1] 1 1) :=
  ⟨by norm_num, by norm_num, by norm_num [lotGrowthOKb],
    be_levels_monotone 1 1 1 [1, 1] (by norm_num) (by norm_num) (by norm_num)
      (by norm_num) (by norm_num [lotGrowthOKb])⟩

/-! ## Level validation (src/main.py lines 219-251 and 410-430) -/

/-- The fields of an MT5 symbol_info record read by the embedded functions. -/
structure SymbolInfo where
  point : ℚ
  digits : ℕ
  trade_stops_level : ℚ
  volume_step : ℚ
  volume_min : ℚ
  volume_max : ℚ

/-- The fields of an MT5 tick read by the embedded functions. -/
structure Tick where
  bid : ℚ
  ask : ℚ

/-- Trade direction. -/
inductive Action where
  | BUY
  | SELL
deriving DecidableEq

/-- The current reference price: ask for BUY, bid for SELL. -/
def reference_price (action : Action) (tick : Tick) : ℚ :=
  match action with
  | .BUY => tick.ask
  | .SELL => tick.bid

/-- The raw candidate levels computed inside calculate_stop_levels
(src/main.py lines 235-239). -/
def raw_stop_levels (info : SymbolInfo) (tick : Tick) (action : Action)
    (top_up_levels : List ℚ) (number_of_pips : ℚ) : List ℚ :=
  let current_price := reference_price action tick
  top_up_levels.map (fun level =>
    match action with
    | .BUY => current_price + level / 100 * number_of_pips * info.point
    | .SELL => current_price - level / 100 * number_of_pips * info.point)

/-- src/main.py, calculate_stop_levels: computes the raw levels, keeps those at
least min_stop_distance from the current price, and appends each kept level
rounded to the symbol's digits. -/
def calculate_stop_levels (info : SymbolInfo) (tick : Tick) (action : Action)
    (top_up_levels : List ℚ) (number_of_pips : ℚ) : List ℚ :=
  let min_stop_distance := info.trade_stops_level * info.point
  let current_price := reference_price action tick
  (raw_stop_levels info tick action top_up_levels number_of_pips).filterMap
    (fun level =>
      if min_stop_distance ≤ |level - current_price| then
        some (pyRoundDigits info.digits level)
      else none)

/-- src/main.py, validate_stop_levels: keeps exactly the input levels at least
min_stop_distance away from both bid and ask, unchanged. -/
def validate_stop_levels (info : SymbolInfo) (tick : Tick) (stop_levels : List ℚ) :
    List ℚ :=
  let min_stop_distance := info.trade_stops_level * info.point
  stop_levels.filter (fun level =>
    decide (min_stop_distance ≤ |level - tick.bid|) &&
      decide (min_stop_distance ≤ |level - tick.ask|))

/-- Claim C6 (amended): validate_stop_levels returns a subset of its candidate input
and every returned level is at least min_stop_distance from both bid and ask
(hence from the reference price of either direction); calculate_stop_levels
checks the same distance bound on the raw candidate but returns it rounded to
the symbol's digits, so its output levels are roundings of — not members of —
the candidate set. -/
theorem level_validator_bounds (info : SymbolInfo) (tick : Tick) (action : Action)
    (stop_levels top_up_levels : List ℚ) (number_of_pips : ℚ) :
    (∀ l ∈ validate_stop_levels info tick stop_levels,
        l ∈ stop_levels ∧
        info.trade_stops_level * info.point ≤ |l - tick.bid| ∧
        info.trade_stops_level * info.point ≤ |l - tick.ask|) ∧
    (∀ l ∈ calculate_stop_levels info tick action top_up_levels number_of_pips,
        ∃ raw ∈ raw_stop_levels info tick action top_up_levels number_of_pips,
          l = pyRoundDigits info.digits raw ∧
          info.trade_stops_level * info.point ≤ |raw - reference_price action tick|) := by
  constructor
  · intro l hl
    rw [validate_stop_levels, List.mem_filter] at hl
    obtain ⟨hmem, hcond⟩ := hl
    simp only [Bool.and_eq_true, decide_eq_true_eq] at hcond
    exact ⟨hmem, hcond.1, hcond.2⟩
  · intro l hl
    rw [calculate_stop_levels, List.mem_filterMap] at hl
    obtain ⟨raw, hraw, hcond⟩ := hl
    by_cases h : info.trade_stops_level * info.point ≤ |raw - reference_price action tick|
    · rw [if_pos h] at hcond
      exact ⟨raw, hraw, (Option.some.injEq _ _ ▸ hcond).symm, h⟩
    · rw [if_neg h] at hcond
      exact absurd hcond (Option.noConfusion)

/-- Claim C6 counterexample: with point 0.01, 2 price digits, ask 100 and top-up
level 30% of 101 pips, the sole raw candidate is 100.303, yet the validator
returns 100.30 — a rounded level that is not a member of the candidate set, so
the returned levels are not a subset of the candidates. -/
theorem level_validator_counterexample :
    raw_stop_levels ⟨1/100, 2, 0, 0, 0, 0⟩ ⟨100, 100⟩ Action.BUY [30] 101 = [100303/1000] ∧
    calculate_stop_levels ⟨1/100, 2, 0, 0, 0, 0⟩ ⟨100, 100⟩ Action.BUY [30] 101 = [1003/10] ∧
    (1003 : ℚ)/10 ∉ raw_stop_levels ⟨1/100, 2, 0, 0, 0, 0⟩ ⟨100, 100⟩ Action.BUY [30] 101 := by
  have hraw : raw_stop_levels ⟨1/100, 2, 0, 0, 0, 0⟩ ⟨100, 100⟩ Action.BUY [30] 101 =
      [100303/1000] := by
    norm_num [raw_stop_levels, reference_price]
  refine ⟨hraw, ?_, ?_⟩
  · rw [calculate_stop_levels]
    rw [hraw]
    norm_num [reference_price, pyRoundDigits, pyRoundInt, List.filterMap_cons]
    rw [show Int.fract ((100303:ℚ)/10) = 3/10 by rw [Int.fract]; norm_num]
    norm_num
  · rw [hraw]
    norm_num

/-- Witness for level_validator_bounds at a concrete input. -/
theorem level_validator_bounds_witness :
    (1 : ℚ) ∈ validate_stop_levels ⟨1/100, 2, 0, 0, 0, 0⟩ ⟨0, 0⟩ [1] ∧
    ((1 : ℚ) ∈ [(1 : ℚ)] ∧
      (⟨1/100, 2, 0, 0, 0, 0⟩ : SymbolInfo).trade_stops_level * (1/100 : ℚ) ≤ |1 - 0| ∧
      (⟨1/100, 2, 0, 0, 0, 0⟩ : SymbolInfo).trade_stops_level * (1/100 : ℚ) ≤ |1 - 0|) := by
  have hmem : (1 : ℚ) ∈ validate_stop_levels ⟨1/100, 2, 0, 0, 0, 0⟩ ⟨0, 0⟩ [1] := by
    norm_num [validate_stop_levels]
  have h := (level_validator_bounds ⟨1/100, 2, 0, 0, 0, 0⟩ ⟨0, 0⟩ Action.BUY [1] [] 0).1
    1 hmem
  exact ⟨hmem, h⟩

/-! ## Ladder monitor (src/main.py lines 447-471 and 484-510) -/

/-- An open market position as seen by one Monitor poll. -/
structure Position where
  magic : ℤ
deriving DecidableEq

/-- A live pending (stop) order as seen by one Monitor poll. -/
structure PendingOrder where
  ticket : ℤ
  magic : ℤ
deriving DecidableEq

/-- A TRADE_ACTION_REMOVE request built by cancel_stop_orders. -/
structure CancelRequest where
  order : ℤ
  magic : ℤ
deriving DecidableEq

/-- src/main.py, cancel_stop_orders: for every pending order carrying the magic
number a cancel request is built and sent; the gateway's verdict (the send
oracle) is only inspected for logging, never to stop the loop.  We return the
list of (request, verdict) pairs in loop order. -/
def cancel_stop_orders (send : CancelRequest → Bool) (pending_orders : List PendingOrder)
    (magic_number : ℤ) : List (CancelRequest × Bool) :=
  pending_orders.filterMap (fun order =>
    if order.magic = magic_number then
      some (⟨order.ticket, magic_number⟩, send ⟨order.ticket, magic_number⟩)
    else none)

/-- The set of magic numbers of the open positions (src/main.py line 496). -/
def active_magic_numbers (positions : List Position) : List ℤ :=
  positions.map (fun pos => pos.magic)

/-- One iteration of the monitor_orders polling loop (src/main.py lines
487-507), on a successful poll: for each direction whose anchor magic number is
absent from the open positions, cancel all pending orders with that magic. -/
def monitor_poll (send : CancelRequest → Bool) (positions : List Position)
    (pending_orders : List PendingOrder) (magic_number_buy magic_number_sell : ℤ) :
    List (CancelRequest × Bool) :=
  (if magic_number_buy ∈ active_magic_numbers positions then []
    else cancel_stop_orders send pending_orders magic_number_buy) ++
  (if magic_number_sell ∈ active_magic_numbers positions then []
    else cancel_stop_orders send pending_orders magic_number_sell)

lemma cancel_stop_orders_requests_indep (send send' : CancelRequest → Bool)
    (magic_number : ℤ) :
    ∀ pending_orders : List PendingOrder,
      (cancel_stop_orders send pending_orders magic_number).map Prod.fst =
        (cancel_stop_orders send' pending_orders magic_number).map Prod.fst := by
  intro pending
  induction pending with
  | nil => rfl
  | cons o rest ih =>
      rw [cancel_stop_orders, cancel_stop_orders] at *
      by_cases h : o.magic = magic_number
      · simp only [List.filterMap_cons, if_pos h, List.map_cons]
        rw [ih]
      · simp only [List.filterMap_cons, if_neg h]
        exact ih

lemma cancel_stop_orders_covers (send : CancelRequest → Bool) (magic_number : ℤ) :
    ∀ (pending_orders : List PendingOrder) (o : PendingOrder),
      o ∈ pending_orders → o.magic = magic_number →
      (⟨o.ticket, magic_number⟩ : CancelRequest) ∈
        (cancel_stop_orders send pending_orders magic_number).map Prod.fst := by
  intro pending
  induction pending with
  | nil => intro o h; simp at h
  | cons p rest ih =>
      intro o hmem hmagic
      rw [cancel_stop_orders, List.filterMap_cons]
      rcases List.mem_cons.mp hmem with heq | htail
      · subst heq
        rw [if_pos hmagic]
        simp
      · by_cases h : p.magic = magic_number
        · rw [if_pos h]
          simp only [List.map_cons, List.mem_cons]
          right
          exact ih o htail hmagic
        · rw [if_neg h]
          exact ih o htail hmagic

/-- Claim C7: whenever a poll sees a ladder's anchor magic number absent from the
open positions, the Monitor issues a cancel request for every pending order
carrying that magic number, and the set of requests issued is the same
whatever verdicts the gateway returns for individual cancels (a failed cancel
never suppresses the others). -/
theorem monitor_cancels_orphans (send send' : CancelRequest → Bool)
    (positions : List Position) (pending_orders : List PendingOrder)
    (magic_number_buy magic_number_sell : ℤ) :
    (magic_number_buy ∉ active_magic_numbers positions →
      ∀ o ∈ pending_orders, o.magic = magic_number_buy →
        (⟨o.ticket, magic_number_buy⟩ : CancelRequest) ∈
          (monitor_poll send positions pending_orders magic_number_buy
            magic_number_sell).map Prod.fst) ∧
    (magic_number_sell ∉ active_magic_numbers positions →
      ∀ o ∈ pending_orders, o.magic = magic_number_sell →
        (⟨o.ticket, magic_number_sell⟩ : CancelRequest) ∈
          (monitor_poll send positions pending_orders magic_number_buy
            magic_number_sell).map Prod.fst) ∧
    (monitor_poll send positions pending_orders magic_number_buy
        magic_number_sell).map Prod.fst =
      (monitor_poll send' positions pending_orders magic_number_buy
        magic_number_sell).map Prod.fst := by
  refine ⟨?_, ?_, ?_⟩
  · intro habs o hmem hmagic
    rw [monitor_poll, List.map_append]
    apply List.mem_append_left
    rw [if_neg habs]
    exact cancel_stop_orders_covers send magic_number_buy pending_orders o hmem hmagic
  · intro habs o hmem hmagic
    rw [monitor_poll, List.map_append]
    apply List.mem_append_right
    rw [if_neg habs]
    exact cancel_stop_orders_covers send magic_number_sell pending_orders o hmem hmagic
  · rw [monitor_poll, monitor_poll, List.map_append, List.map_append]
    congr 1 <;> split_ifs <;>
      first
        | rfl
        | apply cancel_stop_orders_requests_indep

/-- Witness for monitor_cancels_orphans at a concrete input: no open positions,
one pending BUY-ladder order; its cancel request is issued. -/
theorem monitor_cancels_orphans_witness :
    ((1001 : ℤ) ∉ active_magic_numbers []) ∧
    (⟨5, 1001⟩ : CancelRequest) ∈
      (monitor_poll (fun _ => false) [] [⟨5, 1001⟩] 1001 1002).map Prod.fst :=
  ⟨by simp [active_magic_numbers],
    (monitor_cancels_orphans (fun _ => false) (fun _ => true) [] [⟨5, 1001⟩] 1001 1002).1
      (by simp [active_magic_numbers]) ⟨5, 1001⟩ (by simp) rfl⟩

/-! ## Ladder allocator (src/main.py lines 41-57 and 536-563) -/

/-- The dict returned by calculate_pip_gain. -/
structure PipGains where
  initial : ℚ
  stop_1 : ℚ
  stop_2 : ℚ
  stop_3 : ℚ

/-- src/main.py, calculate_pip_gain: each pip gain is rounded to two
decimals. -/
def calculate_pip_gain (number_of_pips spread_in_pips : ℚ)
    (top_up_levels1 top_up_levels2 top_up_levels3 : ℚ) : PipGains where
  initial := pyRound2 (number_of_pips - spread_in_pips)
  stop_1 := pyRound2 (number_of_pips * (1 - top_up_levels1 / 100) - spread_in_pips)
  stop_2 := pyRound2 (number_of_pips * (1 - top_up_levels2 / 100) - spread_in_pips)
  stop_3 := pyRound2 (number_of_pips * (1 - top_up_levels3 / 100) - spread_in_pips)

/-- src/main.py, calculate_gain_in_dollars (rounds to cents). -/
def calculate_gain_in_dollars (lot_size pip_gain pip_value : ℚ) : ℚ :=
  pyRound2 (lot_size * pip_gain * pip_value)

/-- The quantities the allocator part of main (src/main.py lines 536-563)
computes for the three top-up rungs. -/
structure LadderPlan where
  total_gain : ℚ
  initial_lot_size : ℚ
  gain_in_dollars_initial : ℚ
  gain_in_dollars_stop_1 : ℚ
  gain_in_dollars_stop_2 : ℚ
  gain_in_dollars_stop_3 : ℚ
  lots_stop_1 : ℚ
  lots_stop_2 : ℚ
  lots_stop_3 : ℚ

/-- The allocator pipeline of main (src/main.py lines 536-563), verbatim:
total gain, loss, initial lot, rounded pip gains, rounded initial
contribution, proportional residual split and per-rung lot sizes. -/
def main_ladder_allocation (account_size target_gain_percent initial_stop_percent
    initial_stop_level number_of_pips spread_in_pips pip_value
    top_up_levels1 top_up_levels2 top_up_levels3 : ℚ) : LadderPlan :=
  let total_gain := (account_size * target_gain_percent) / 100
  let loss_in_dollars := calculate_loss_in_dollars initial_stop_percent account_size
  let initial_lot_size := calculate_initial_lot_size loss_in_dollars initial_stop_level pip_value
  let pip_gains := calculate_pip_gain number_of_pips spread_in_pips
    top_up_levels1 top_up_levels2 top_up_levels3
  let gain_in_dollars_initial :=
    calculate_gain_in_dollars initial_lot_size pip_gains.initial pip_value
  let gain_in_dollars_stop_1 := ((total_gain - gain_in_dollars_initial) * top_up_levels1) /
    (top_up_levels1 + top_up_levels2 + top_up_levels3)
  let gain_in_dollars_stop_2 := ((total_gain - gain_in_dollars_initial) * top_up_levels2) /
    (top_up_levels1 + top_up_levels2 + top_up_levels3)
  let gain_in_dollars_stop_3 := ((total_gain - gain_in_dollars_initial) * top_up_levels3) /
    (top_up_levels1 + top_up_levels2 + top_up_levels3)
  let lots_stop_1 := gain_in_dollars_stop_1 / (pip_gains.stop_1 * pip_value)
  let lots_stop_2 := gain_in_dollars_stop_2 / (pip_gains.stop_2 * pip_value)
  let lots_stop_3 := gain_in_dollars_stop_3 / (pip_gains.stop_3 * pip_value)
  ⟨total_gain, initial_lot_size, gain_in_dollars_initial,
    gain_in_dollars_stop_1, gain_in_dollars_stop_2, gain_in_dollars_stop_3,
    lots_stop_1, lots_stop_2, lots_stop_3⟩

/-- Claim C9 (amended): the allocator follows the spec's formulas only up to the
roundings the code inserts: each pip gain and the initial contribution are
rounded to two decimals before use.  With those roundings made explicit the
residual split and per-rung lot sizes are exactly as the spec states. -/
theorem allocator_formulas (account_size target_gain_percent initial_stop_percent
    initial_stop_level number_of_pips spread_in_pips pip_value
    top_up_levels1 top_up_levels2 top_up_levels3 : ℚ) :
    (calculate_pip_gain number_of_pips spread_in_pips top_up_levels1 top_up_levels2
        top_up_levels3).stop_1 =
      pyRound2 (number_of_pips * (1 - top_up_levels1 / 100) - spread_in_pips) ∧
    (main_ladder_allocation account_size target_gain_percent initial_stop_percent
        initial_stop_level number_of_pips spread_in_pips pip_value
        top_up_levels1 top_up_levels2 top_up_levels3).gain_in_dollars_stop_1 =
      ((account_size * target_gain_percent / 100 -
          pyRound2 (pyRound2 (initial_stop_percent / 100 * account_size /
              (initial_stop_level * pip_value)) *
            pyRound2 (number_of_pips - spread_in_pips) * pip_value)) * top_up_levels1) /
        (top_up_levels1 + top_up_levels2 + top_up_levels3) ∧
    (main_ladder_allocation account_size target_gain_percent initial_stop_percent
        initial_stop_level number_of_pips spread_in_pips pip_value
        top_up_levels1 top_up_levels2 top_up_levels3).lots_stop_1 =
      (main_ladder_allocation account_size target_gain_percent initial_stop_percent
        initial_stop_level number_of_pips spread_in_pips pip_value
        top_up_levels1 top_up_levels2 top_up_levels3).gain_in_dollars_stop_1 /
      (pyRound2 (number_of_pips * (1 - top_up_levels1 / 100) - spread_in_pips) * pip_value) ∧
    (main_ladder_allocation account_size target_gain_percent initial_stop_percent
        initial_stop_level number_of_pips spread_in_pips pip_value
        top_up_levels1 top_up_levels2 top_up_levels3).lots_stop_2 =
      (main_ladder_allocation account_size target_gain_percent initial_stop_percent
        initial_stop_level number_of_pips spread_in_pips pip_value
        top_up_levels1 top_up_levels2 top_up_levels3).gain_in_dollars_stop_2 /
      (pyRound2 (number_of_pips * (1 - top_up_levels2 / 100) - spread_in_pips) * pip_value) ∧
    (main_ladder_allocation account_size target_gain_percent initial_stop_percent
        initial_stop_level number_of_pips spread_in_pips pip_value
        top_up_levels1 top_up_levels2 top_up_levels3).lots_stop_3 =
      (main_ladder_allocation account_size target_gain_percent initial_stop_percent
        initial_stop_level number_of_pips spread_in_pips pip_value
        top_up_levels1 top_up_levels2 top_up_levels3).gain_in_dollars_stop_3 /
      (pyRound2 (number_of_pips * (1 - top_up_levels3 / 100) - spread_in_pips) * pip_value) :=
  ⟨rfl, rfl, rfl, rfl, rfl⟩

/-- Claim C9 counterexample: the spec's unrounded pip-gain formula gives 0.699 for a
take-profit distance of 1 pip, rung percentage 30 and spread 0.001 pips, but
the code rounds pip gains to two decimals and computes 0.7. -/
theorem allocator_pip_gain_counterexample :
    (calculate_pip_gain 1 (1/1000) 30 60 90).stop_1 = 7/10 ∧
    (1 : ℚ) * (1 - 30/100) - 1/1000 = 699/1000 ∧
    (calculate_pip_gain 1 (1/1000) 30 60 90).stop_1 ≠ (1 : ℚ) * (1 - 30/100) - 1/1000 := by
  refine ⟨?_, by norm_num, ?_⟩ <;>
    norm_num [calculate_pip_gain, pyRound2, pyRoundInt]

/-! ## Volume adjustment (src/main.py lines 123-148) -/

/-- src/main.py, adjust_volume: snap the requested volume to the nearest
multiple of volume_step (rounded to two decimals), then clamp into
[volume_min, volume_max].  The computation volume / volume_step raises
ZeroDivisionError in Python when volume_step = 0; that failure is modelled as
none. -/
def adjust_volume (info : SymbolInfo) (volume : ℚ) : Option ℚ :=
  if info.volume_step = 0 then none
  else
    let adjusted_volume :=
      pyRound2 ((pyRoundInt (volume / info.volume_step) : ℚ) * info.volume_step)
    if adjusted_volume < info.volume_min then some info.volume_min
    else if info.volume_max < adjusted_volume then some info.volume_max
    else some adjusted_volume

/-- Claim C10 (amended): for metadata with a nonzero volume step and
volume_min ≤ volume_max, adjust_volume returns a volume in
[volume_min, volume_max]; a volume whose step-snapped value falls below
volume_min (in particular volume 0 when volume_min > 0) is raised to
volume_min, and one above volume_max is capped at volume_max.  When
volume_step = 0 the source instead dies with ZeroDivisionError. -/
theorem adjust_volume_in_range (info : SymbolInfo) (volume : ℚ)
    (hstep : info.volume_step ≠ 0) (hminmax : info.volume_min ≤ info.volume_max) :
    ∃ v, adjust_volume info volume = some v ∧
      info.volume_min ≤ v ∧ v ≤ info.volume_max ∧
      (pyRound2 ((pyRoundInt (volume / info.volume_step) : ℚ) * info.volume_step) <
          info.volume_min → v = info.volume_min) ∧
      (info.volume_max <
          pyRound2 ((pyRoundInt (volume / info.volume_step) : ℚ) * info.volume_step) →
        v = info.volume_max) := by
  rw [adjust_volume, if_neg hstep]
  set adjusted_volume :=
    pyRound2 ((pyRoundInt (volume / info.volume_step) : ℚ) * info.volume_step) with hadj
  by_cases h1 : adjusted_volume < info.volume_min
  · refine ⟨info.volume_min, ?_, le_refl _, hminmax, fun _ => rfl, fun h2 => ?_⟩
    · rw [if_pos h1]
    · exact absurd (lt_of_lt_of_le (lt_trans h2 h1) hminmax) (lt_irrefl _)
  · by_cases h2 : info.volume_max < adjusted_volume
    · refine ⟨info.volume_max, ?_, hminmax, le_refl _, fun h1' => absurd h1' h1, fun _ => rfl⟩
      rw [if_neg h1, if_pos h2]
    · refine ⟨adjusted_volume, ?_, le_of_not_lt h1, le_of_not_lt h2,
        fun h1' => absurd h1' h1, fun h2' => absurd h2' h2⟩
      rw [if_neg h1, if_neg h2]

/-- Claim C10 counterexample: a symbol whose metadata has volume_min = 1 ≤ 2 =
volume_max but volume_step = 0 makes adjust_volume fail (Python:
ZeroDivisionError at volume / volume_step) instead of returning a volume in
[volume_min, volume_max]. -/
theorem adjust_volume_counterexample :
    (⟨1/100, 2, 0, 0, 1, 2⟩ : SymbolInfo).volume_min ≤
      (⟨1/100, 2, 0, 0, 1, 2⟩ : SymbolInfo).volume_max ∧
    adjust_volume ⟨1/100, 2, 0, 0, 1, 2⟩ 1 = none := by
  constructor
  · norm_num
  · rfl

/-- Witness for adjust_volume_in_range at a concrete input: requested volume 0
with volume_min = 0.01 is raised to the minimum. -/
theorem adjust_volume_in_range_witness :
    (⟨1/100, 2, 0, 1/100, 1/100, 100⟩ : SymbolInfo).volume_step ≠ 0 ∧
    (⟨1/100, 2, 0, 1/100, 1/100, 100⟩ : SymbolInfo).volume_min ≤
      (⟨1/100, 2, 0, 1/100, 1/100, 100⟩ : SymbolInfo).volume_max ∧
    ∃ v, adjust_volume ⟨1/100, 2, 0, 1/100, 1/100, 100⟩ 0 = some v ∧
      (⟨1/100, 2, 0, 1/100, 1/100, 100⟩ : SymbolInfo).volume_min ≤ v ∧
      v ≤ (⟨1/100, 2, 0, 1/100, 1/100, 100⟩ : SymbolInfo).volume_max ∧
      (pyRound2 ((pyRoundInt ((0:ℚ) / (1/100)) : ℚ) * (1/100)) < (1/100 : ℚ) → v = 1/100) ∧
      ((100 : ℚ) < pyRound2 ((pyRoundInt ((0:ℚ) / (1/100)) : ℚ) * (1/100)) → v = 100) :=
  ⟨by norm_num, by norm_num,
    adjust_volume_in_range ⟨1/100, 2, 0, 1/100, 1/100, 100⟩ 0 (by norm_num) (by norm_num)⟩

end Hedging
